import Mathlib

/-!
Verification of the Austin / San Antonio multifamily permit pipeline.

This file gives a shallow embedding of the two ingestion pipelines
(`pipeline.py` for City A = Austin, `pipeline_sanantonio.py` for City B =
San Antonio) and proves properties of the embedded definitions.

Modelling conventions:
* SQL DATE values are modelled as `Nat` (days since an arbitrary epoch);
  the order on `Nat` matches the order on dates.
* Python floats appearing in comparisons are modelled as `ℚ`; in the ranges
  used by the pipeline (coordinates, areas up to a few million square feet
  divided by 900) double rounding is exact, so rational arithmetic agrees
  with the float arithmetic of the source.
* A table is modelled as a `List` of rows; `INSERT ... ON CONFLICT (k) DO
  UPDATE` is modelled by `upsertBy`, which merges into the row holding the
  conflicting key and otherwise appends.  The `RETURNING (xmax = 0)` flag is
  `true` exactly when a fresh row was appended.
* Field values read from the loosely typed source dictionaries are modelled
  as `Option` of their parsed type, `none` standing for an absent, empty or
  unparseable value.
-/

namespace Pipeline

/-- Model of `INSERT ... ON CONFLICT (key) DO UPDATE` against a list of rows: if some
row has the key of `r`, replace it by `merge row r` and report `false`
(updated); otherwise append `r` and report `true` (inserted). -/
def upsertBy (key : α → String) (merge : α → α → α) : List α → α → List α × Bool
  | [], r => ([r], true)
  | x :: xs, r =>
      if key x = key r then (merge x r :: xs, false)
      else
        let p := upsertBy key merge xs r
        (x :: p.1, p.2)

theorem upsertBy_of_not_mem (key : α → String) (merge : α → α → α)
    (s : List α) (r : α) (h : key r ∉ s.map key) :
    upsertBy key merge s r = (s ++ [r], true) := by
  induction s with
  | nil => rfl
  | cons x xs ih =>
      simp only [List.map_cons, List.mem_cons, not_or] at h
      have hne : ¬ key x = key r := fun hc => h.1 hc.symm
      simp [upsertBy, hne, ih h.2]

theorem map_ite_merge_of_not_mem (key : α → String) (merge : α → α → α)
    (r : α) (s : List α) (h : key r ∉ s.map key) :
    s.map (fun x => if key x = key r then merge x r else x) = s := by
  induction s with
  | nil => rfl
  | cons x xs ih =>
      simp only [List.map_cons, List.mem_cons, not_or] at h
      have hne : ¬ key x = key r := fun hc => h.1 hc.symm
      simp [hne, ih h.2]

theorem upsertBy_of_mem (key : α → String) (merge : α → α → α)
    (s : List α) (r : α) (hnd : (s.map key).Nodup) (h : key r ∈ s.map key) :
    upsertBy key merge s r =
      (s.map (fun x => if key x = key r then merge x r else x), false) := by
  induction s with
  | nil => simp at h
  | cons x xs ih =>
      simp only [List.map_cons, List.nodup_cons] at hnd
      rcases List.mem_cons.mp h with hx | hxs
      · have hx' : key x = key r := hx.symm
        have hnotin : key r ∉ xs.map key := hx ▸ hnd.1
        simp [upsertBy, hx', map_ite_merge_of_not_mem key merge r xs hnotin]
      · have hne : ¬ key x = key r := by
          intro hc
          exact hnd.1 (hc ▸ hxs)
        simp [upsertBy, hne, ih hnd.2 hxs]

theorem upsertBy_keys_of_mem (key : α → String) (merge : α → α → α)
    (hmk : ∀ x y, key (merge x y) = key x)
    (s : List α) (r : α) (hnd : (s.map key).Nodup) (h : key r ∈ s.map key) :
    ((upsertBy key merge s r).1).map key = s.map key := by
  rw [upsertBy_of_mem key merge s r hnd h]
  simp only [List.map_map]
  refine List.map_congr_left ?_
  intro a _
  by_cases hc : key a = key r
  · simp [Function.comp_apply, hc, hmk]
  · simp [Function.comp_apply, hc]

theorem upsertBy_twice (key : α → String) (merge : α → α → α)
    (hmk : ∀ x y, key (merge x y) = key x)
    (s : List α) (r : α)
    (hnd : (s.map key).Nodup) (hfresh : key r ∉ s.map key) :
    (upsertBy key merge s r).2 = true ∧
    (upsertBy key merge (upsertBy key merge s r).1 r).2 = false ∧
    ((upsertBy key merge (upsertBy key merge s r).1 r).1.map key).count (key r) = 1 ∧
    (upsertBy key merge (upsertBy key merge s r).1 r).1.length = s.length + 1 := by
  have h1 : upsertBy key merge s r = (s ++ [r], true) :=
    upsertBy_of_not_mem key merge s r hfresh
  have hkeys1 : (s ++ [r]).map key = s.map key ++ [key r] := by simp
  have hnd1 : ((s ++ [r]).map key).Nodup := by
    rw [hkeys1]
    exact List.Nodup.append hnd (List.nodup_singleton _)
      (by simpa [List.disjoint_singleton] using hfresh)
  have hmem1 : key r ∈ (s ++ [r]).map key := by simp
  have h2 := upsertBy_of_mem key merge (s ++ [r]) r hnd1 hmem1
  refine ⟨by rw [h1], by rw [h1]; rw [h2], ?_, ?_⟩
  · have hk2 : ((upsertBy key merge (s ++ [r]) r).1).map key = (s ++ [r]).map key :=
      upsertBy_keys_of_mem key merge hmk (s ++ [r]) r hnd1 hmem1
    rw [h1]
    simp only [hk2, hkeys1, List.count_append]
    rw [List.count_eq_zero.mpr hfresh]
    simp
  · rw [h1, h2]
    simp

/-- City A (Austin) normalized permit record: the dict built by
`parse_record` in `pipeline.py`, which is also the column set written by
`UPSERT_RAW_SQL` into `co_permits_raw`. -/
structure AustinRaw where
  permit_num      : String
  masterpermitnum : Option String
  permit_class    : String
  issue_date      : Nat
  address         : String
  zip_code        : Option String
  latitude        : Option ℚ
  longitude       : Option ℚ
  total_units     : Int
  work_class      : String
  project_name    : String
  permit_type     : String
  permit_status   : String
  raw_json        : String
  deriving Repr, DecidableEq

/-- The `DO UPDATE SET` clause of Austin `UPSERT_RAW_SQL`: every column of
the insert list is overwritten from `EXCLUDED` except `project_name` and
`permit_type` (and the key itself, which is equal on conflict). -/
def austinRawMerge (old new : AustinRaw) : AustinRaw :=
  { new with
      permit_num   := old.permit_num
      project_name := old.project_name
      permit_type  := old.permit_type }

def upsertAustinRaw (s : List AustinRaw) (r : AustinRaw) : List AustinRaw × Bool :=
  upsertBy AustinRaw.permit_num austinRawMerge s r

/-- City B (San Antonio) normalized permit record: the dict built by
`parse_record` in `pipeline_sanantonio.py`, the column set of its
`UPSERT_RAW_SQL`. -/
structure SARaw where
  permit_num     : String
  issue_date     : String
  submitted_date : Option String
  address        : String
  zip_code       : Option String
  latitude       : Option ℚ
  longitude      : Option ℚ
  area_sf        : Option Int
  total_units    : Int
  work_class     : String
  project_name   : String
  permit_type    : String
  permit_status  : String
  cd             : Option String
  raw_json       : String
  deriving Repr, DecidableEq

/-- The `DO UPDATE SET` clause of San Antonio `UPSERT_RAW_SQL`: overwrites
all inserted columns except `work_class`, `project_name`, `permit_type`
and `cd`. -/
def saRawMerge (old new : SARaw) : SARaw :=
  { new with
      permit_num   := old.permit_num
      work_class   := old.work_class
      project_name := old.project_name
      permit_type  := old.permit_type
      cd           := old.cd }

def upsertSARaw (s : List SARaw) (r : SARaw) : List SARaw × Bool :=
  upsertBy SARaw.permit_num saRawMerge s r

theorem austinRawMerge_key (x y : AustinRaw) :
    (austinRawMerge x y).permit_num = x.permit_num := rfl

theorem saRawMerge_key (x y : SARaw) :
    (saRawMerge x y).permit_num = x.permit_num := rfl

/-- Sample Austin record used to instantiate hypotheses of proved claims. -/
def aSample : AustinRaw :=
  { permit_num := "2024-000111 BP", masterpermitnum := some "2024-000100 MP"
    permit_class := "C- 105 Five or More Family Bldgs", issue_date := 200
    address := "101 MAIN ST, AUSTIN TX 78701", zip_code := some "78701"
    latitude := some (303/10), longitude := some (-977/10)
    total_units := 120, work_class := "NEW", project_name := "MAIN ST APTS"
    permit_type := "Building Permit", permit_status := "Final"
    raw_json := "{}" }

/-- The same Austin permit refetched later with changed mutable fields. -/
def aSample2 : AustinRaw :=
  { aSample with issue_date := 210, total_units := 130, permit_status := "Expired" }

/-- Sample San Antonio record used to instantiate hypotheses of proved claims. -/
def sSample : SARaw :=
  { permit_num := "MF-2024-555", issue_date := "2024-03-01"
    submitted_date := some "2024-01-10"
    address := "500 COMMERCE ST San Antonio TX 78205", zip_code := some "78205"
    latitude := some (147/5), longitude := some (-985/10)
    area_sf := some 90000, total_units := 100, work_class := "NEW"
    project_name := "COMMERCE LOFTS", permit_type := "Comm New Building Permit"
    permit_status := "Issued", cd := some "1", raw_json := "{}" }

/-! ## Deduplicated project view (`co_projects`) -/

/-- One step of `DISTINCT ON (key) ... ORDER BY key, date DESC`: keep, per
key, the row with the strictly later date (the incumbent survives ties). -/
def updateLatest [DecidableEq κ] (date : α → Nat) :
    List (κ × α) → κ → α → List (κ × α)
  | [], k, r => [(k, r)]
  | (k0, r0) :: rest, k, r =>
      if k0 = k then
        (if date r0 < date r then (k0, r) :: rest else (k0, r0) :: rest)
      else (k0, r0) :: updateLatest date rest k r

/-- Model of `SELECT DISTINCT ON (key) ... ORDER BY key, date DESC` over an input
list whose order models the (arbitrary) physical order of the table: for
each key the row with the maximal date is surfaced; among equal dates the
choice is unspecified in SQL, modelled here as first-in-input-order. -/
def pickLatest [DecidableEq κ] (key : α → κ) (date : α → Nat)
    (rows : List α) : List (κ × α) :=
  rows.foldl (fun acc r => updateLatest date acc (key r) r) []

/-- City A enriched permit (`co_permits` row, fields used by `co_projects`). -/
structure AustinPermit where
  id              : Nat
  permit_num      : String
  masterpermitnum : Option String
  issue_date      : Nat
  total_units     : Int
  work_class      : String
  submarket_name  : Option String
  deriving Repr, DecidableEq

/-- Austin dedup key: `COALESCE(masterpermitnum, permit_num)`. -/
def austinDedupKey (p : AustinPermit) : String :=
  p.masterpermitnum.getD p.permit_num

/-- Austin `co_projects` WHERE clause:
`work_class = 'NEW' AND total_units BETWEEN 5 AND 1000`. -/
def austinProjectsFilter (p : AustinPermit) : Bool :=
  p.work_class = "NEW" && 5 ≤ p.total_units && p.total_units ≤ 1000

/-- Austin `co_projects` view. -/
def austinProjects (rows : List AustinPermit) : List (String × AustinPermit) :=
  pickLatest austinDedupKey AustinPermit.issue_date
    (rows.filter austinProjectsFilter)

/-- City B enriched permit (`co_permits` row, fields used by `co_projects`). -/
structure SAPermit where
  id          : Nat
  permit_num  : String
  address     : String
  issue_date  : Nat
  total_units : Int
  deriving Repr, DecidableEq

/-- San Antonio dedup key: the `(address, total_units)` pair. -/
def saDedupKey (p : SAPermit) : String × Int :=
  (p.address, p.total_units)

/-- San Antonio `co_projects` WHERE clause:
`total_units >= 5 AND total_units <= 2000`. -/
def saProjectsFilter (p : SAPermit) : Bool :=
  5 ≤ p.total_units && p.total_units ≤ 2000

/-- San Antonio `co_projects` view. -/
def saProjects (rows : List SAPermit) : List ((String × Int) × SAPermit) :=
  pickLatest saDedupKey SAPermit.issue_date (rows.filter saProjectsFilter)

theorem perm_pair {α : Type _} {l : List α} {a b : α} (h : l.Perm [a, b]) :
    l = [a, b] ∨ l = [b, a] := by
  have hlen : l.length = 2 := by simpa using h.length_eq
  match l, hlen with
  | [x, y], _ =>
      have hx : x ∈ [a, b] := h.subset (by simp)
      rcases List.mem_cons.mp hx with hxa | hxb
      · have h' : ([a, y]).Perm [a, b] := by rw [hxa] at h; exact h
        have hy : y = b := by simpa using List.perm_singleton.mp h'.cons_inv
        exact Or.inl (by rw [hxa, hy])
      · have hxb' : x = b := by simpa using hxb
        have hswap : List.Perm [a, b] [b, a] := List.Perm.swap b a []
        have h' : ([b, y]).Perm [b, a] := by rw [hxb'] at h; exact h.trans hswap
        have hy : y = a := by simpa using List.perm_singleton.mp h'.cons_inv
        exact Or.inr (by rw [hxb', hy])

/-! ## Spatial / zip enrichment (`ENRICH_SQL`)

Both pipelines share the same resolution fragment:

```
LEFT JOIN costar_submarkets s
    ON s.geom IS NOT NULL AND r.latitude IS NOT NULL
    AND ST_Contains(s.geom, ST_SetSRID(ST_MakePoint(r.longitude, r.latitude), 4326))
LEFT JOIN zip_submarket_crosswalk z
    ON z.zip_code = COALESCE(r.zip_code, SUBSTRING(r.address FROM <regex>))
... COALESCE(s.submarket_name, z.submarket_name) AS submarket_name
```

Polygon containment is embedded as an abstract boolean test on a
(longitude, latitude) point, and the per-city `SUBSTRING` regex as a
parameter `zfa` (zip-from-address).  Note `ST_MakePoint(NULL, lat)` is SQL
NULL, so the spatial join requires both coordinates to be present. -/

/-- A `costar_submarkets` row; `geom` is the polygon as a containment test
on (longitude, latitude) points, `none` when the geometry column is NULL. -/
structure Submarket where
  submarket_id   : String
  submarket_name : String
  geom           : Option ((ℚ × ℚ) → Bool)

/-- Test `s.geom IS NOT NULL AND ST_Contains(s.geom, point(lon, lat))`. -/
def submarketContains (s : Submarket) (lon lat : ℚ) : Bool :=
  match s.geom with
  | some g => g (lon, lat)
  | none => false

/-- The spatial `LEFT JOIN`: the matched `costar_submarkets` row, if any.
`none` when either coordinate is NULL or no polygon contains the point. -/
def polyMatch (subs : List Submarket) (latitude longitude : Option ℚ) :
    Option Submarket :=
  match latitude, longitude with
  | some la, some lo => subs.find? (fun s => submarketContains s lo la)
  | _, _ => none

/-- The crosswalk `LEFT JOIN`: `z.submarket_name` for the effective ZIP. -/
def xwalkLookup (xwalk : List (String × String)) (z : Option String) :
    Option String :=
  z.bind (fun zc => (xwalk.find? (fun p => p.1 == zc)).map (·.2))

/-- Resolve `COALESCE(s.submarket_name, z.submarket_name)` where the effective ZIP
is `COALESCE(r.zip_code, SUBSTRING(r.address FROM <regex>))`; `zfa` stands
for the per-city address regex. -/
def enrichSubmarketName (subs : List Submarket) (xwalk : List (String × String))
    (zfa : String → Option String) (latitude longitude : Option ℚ)
    (zip_code : Option String) (address : String) : Option String :=
  match polyMatch subs latitude longitude with
  | some s => some s.submarket_name
  | none => xwalkLookup xwalk (zip_code.orElse (fun _ => zfa address))

/-! ## San Antonio record normalizer (`pipeline_sanantonio.py`)

Raw CKAN values are loosely typed; here a string-valued field is `Option
String` (`none` = key absent or JSON null) and a numeric field is `Option ℚ`
(the parsed float value, `none` = absent, null or unparseable).  Python
truthiness is the emptiness / zero test on those encodings. -/

/-- MIN_UNITS = 5: minimum units to consider as multifamily. -/
def MIN_UNITS : ℤ := 5

/-- MAX_UNITS = 2000: sanity cap. -/
def MAX_UNITS : ℤ := 2000

/-- AVG_UNIT_SF = 900: average multifamily unit size (sq ft). -/
def AVG_UNIT_SF : ℚ := 900

/-- Python `round` on a float: round half to even (banker rounding).  In
the ranges reached by the pipeline (an integer area divided by 900) the
double result rounds to the same integer as the exact rational. -/
def pyRound (q : ℚ) : ℤ :=
  if q - ⌊q⌋ < 1/2 then ⌊q⌋
  else if (1 : ℚ)/2 < q - ⌊q⌋ then ⌊q⌋ + 1
  else if ⌊q⌋ % 2 = 0 then ⌊q⌋ else ⌊q⌋ + 1

/-- Python `int(float v)`: truncation toward zero. -/
def pyTrunc (q : ℚ) : ℤ :=
  if 0 ≤ q then ⌊q⌋ else ⌈q⌉

/-- Python string `or` chain step: `a or dflt` with emptiness truthiness. -/
def pyStrOr (a : Option String) (dflt : String) : String :=
  match a with
  | some s => if s = "" then dflt else s
  | none => dflt

/-- The `_safe_float` helper: parsed float if nonzero, else `None`. -/
def safe_float (v : Option ℚ) : Option ℚ :=
  v.bind (fun f => if f = 0 then none else some f)

/-- The source expression `_safe_int(r.get("AREA (SF)") or r.get("AREA_SF")
or 0)`: first truthy (nonzero) numeric value, truncated to an integer;
0 when both are absent or zero. -/
def areaFromFields (a b : Option ℚ) : ℤ :=
  match safe_float a with
  | some q => pyTrunc q
  | none =>
      match safe_float b with
      | some q => pyTrunc q
      | none => 0

/-- The `_estimate_units` helper: estimate multifamily unit count from gross
building area as `max(MIN_UNITS, round(area_sf / AVG_UNIT_SF))` capped at
MAX_UNITS; 0 for a non-positive area. -/
def estimate_units (area_sf : ℤ) : ℤ :=
  if area_sf ≤ 0 then 0
  else min (max MIN_UNITS (pyRound ((area_sf : ℚ) / AVG_UNIT_SF))) MAX_UNITS

/-- Python `str.strip()`: drop whitespace from both ends. -/
def pyStrip (s : String) : String :=
  String.mk (((s.toList.dropWhile Char.isWhitespace).reverse.dropWhile
    Char.isWhitespace).reverse)

/-- Python `str.upper()` (ASCII range). -/
def pyUpper (s : String) : String :=
  String.mk (s.toList.map Char.toUpper)

/-- Python `str.zfill(2)` on an unsigned numeric string (characters). -/
def zfill2 (l : List Char) : List Char :=
  if l.length ≥ 2 then l else if l.length = 1 then '0' :: l else ['0', '0']

/-- Python `str.split(sep)` for a one-character separator. -/
def splitOnChar (sep : Char) : List Char → List (List Char)
  | [] => [[]]
  | c :: cs =>
      if c = sep then [] :: splitOnChar sep cs
      else
        match splitOnChar sep cs with
        | h :: t => (c :: h) :: t
        | [] => [[c]]

/-- The `_parse_date` helper: ISO-prefix strings are cut to their first 10
characters when the fifth character is a dash; otherwise an `MM/DD/YYYY`
string is rearranged; anything else is `None`.  The argument is the source
expression `r.get(k) or ""`. -/
def parse_date (val : String) : Option String :=
  if val = "" then none
  else
    let s := (pyStrip val).toList
    if s.length ≥ 10 ∧ s.get? 4 = some '-' then some (String.mk (s.take 10))
    else
      match splitOnChar '/' s with
      | [m, d, y] =>
          some (String.mk (y.take 4 ++ '-' :: (zfill2 m ++ '-' :: zfill2 d)))
      | _ => none

/-- Python regex `\w` (ASCII range). -/
def isWordChar (c : Char) : Bool :=
  c.isAlphanum || c = '_'

/-- Try the pattern `\b(7[8-9]\d{3}|78\d{3})\b` at the head of `l`, where
`prev` is the character just before `l` (word-boundary test). -/
def zipMatchAt (prev : Option Char) (l : List Char) : Option String :=
  match l with
  | c0 :: c1 :: c2 :: c3 :: c4 :: rest =>
      if (match prev with | some p => !isWordChar p | none => true)
          && (c0 = '7') && (c1 = '8' || c1 = '9')
          && c2.isDigit && c3.isDigit && c4.isDigit
          && (match rest with | [] => true | c5 :: _ => !isWordChar c5)
      then some (String.mk [c0, c1, c2, c3, c4]) else none
  | _ => none

/-- Leftmost search for `_ZIP_RE` over the characters of the address. -/
def zipSearch (prev : Option Char) : List Char → Option String
  | [] => none
  | c :: cs =>
      match zipMatchAt prev (c :: cs) with
      | some z => some z
      | none => zipSearch (some c) cs

/-- The `_extract_zip` helper: first TX-style 5-digit ZIP in the address. -/
def extract_zip (address : String) : Option String :=
  if address = "" then none else zipSearch none address.toList

/-- Digits value of a digit-character list. -/
def natOfDigits (ds : List Char) : ℕ :=
  ds.foldl (fun n c => 10 * n + (c.toNat - Char.toNat '0')) 0

/-- Match `-?\d+\.\d+` at the head of `l`; returns the float value and the
rest.  The digit runs are maximal, as with a greedy regex. -/
def matchFloat (l : List Char) : Option (ℚ × List Char) :=
  let (neg, l1) := match l with
    | '-' :: t => (true, t)
    | _ => (false, l)
  let (ds, r1) := l1.span Char.isDigit
  if ds.isEmpty then none
  else
    match r1 with
    | '.' :: r2 =>
        let (fs, r3) := r2.span Char.isDigit
        if fs.isEmpty then none
        else
          let mag : ℚ := (natOfDigits ds : ℚ) + (natOfDigits fs : ℚ) / ((10 : ℚ) ^ fs.length)
          some (if neg then -mag else mag, r3)
    | _ => none

/-- Match `[,\s]+` at the head of `l`. -/
def sepMatch (l : List Char) : Option (List Char) :=
  let (ws, rest) := l.span (fun c => c = ',' || c.isWhitespace)
  if ws.isEmpty then none else some rest

/-- Try `(-?\d+\.\d+)[,\s]+(-?\d+\.\d+)` at the head of `l`. -/
def floatPairAt (l : List Char) : Option (ℚ × ℚ) :=
  match matchFloat l with
  | none => none
  | some (a, r1) =>
      match sepMatch r1 with
      | none => none
      | some r2 =>
          match matchFloat r2 with
          | none => none
          | some (b, _) => some (a, b)

/-- Leftmost search of the coordinate-pair regex used on `LOCATION`. -/
def floatPairSearch : List Char → Option (ℚ × ℚ)
  | [] => none
  | c :: cs =>
      match floatPairAt (c :: cs) with
      | some p => some p
      | none => floatPairSearch cs

/-- Coordinate resolution from `X_COORD` / `Y_COORD` in San Antonio
`parse_record`, returning `(lat, lon)`.  First branch (`x` in the longitude
range, `y` in the latitude range) assigns `lon, lat = x, y`; the second
branch (swapped ranges) assigns `lat, lon = y, x` — the same assignment —
as written in the source. -/
def saCoordXY (xRaw yRaw : Option ℚ) : Option ℚ × Option ℚ :=
  match safe_float xRaw, safe_float yRaw with
  | some x, some y =>
      if -100 < x ∧ x < -97 ∧ 28 < y ∧ y < 61/2 then (some y, some x)
      else if -100 < y ∧ y < -97 ∧ 28 < x ∧ x < 61/2 then (some y, some x)
      else (none, none)
  | _, _ => (none, none)

/-- Assignment of a coordinate pair matched inside `LOCATION` (group order
`a`, `b`), returning `(lat, lon)`. -/
def saLocAssign (a b : ℚ) : Option ℚ × Option ℚ :=
  if -100 < a ∧ a < -97 ∧ 28 < b ∧ b < 61/2 then (some b, some a)
  else if -100 < b ∧ b < -97 ∧ 28 < a ∧ a < 61/2 then (some a, some b)
  else (none, none)

/-- The `LOCATION` fallback of San Antonio `parse_record`. -/
def saCoordLoc (loc : String) : Option ℚ × Option ℚ :=
  if loc = "" then (none, none)
  else
    match floatPairSearch loc.toList with
    | some (a, b) => saLocAssign a b
    | none => (none, none)

/-- A raw CKAN record: exactly the keys read by San Antonio `parse_record`
and by the `fetch_all` dedup loop. -/
structure SARecord where
  permitHash    : Option String
  permitNumAlt  : Option String
  dateIssued    : Option String
  dateSubmitted : Option String
  addr          : Option String
  xCoord        : Option ℚ
  yCoord        : Option ℚ
  locationField : Option String
  areaSF        : Option ℚ
  areaSFAlt     : Option ℚ
  workType      : Option String
  projectName   : Option String
  permitType    : Option String
  status        : Option String
  statusAlt     : Option String
  cdField       : Option String
  deriving Repr, DecidableEq

/-- San Antonio `parse_record`: normalize a raw CKAN record, or reject it
(`none`) when the permit number is blank, both dates are unparseable, or
the estimated unit count falls below MIN_UNITS.  `raw_json` is the
serialized input, modelled by a fixed placeholder. -/
def parse_record (r : SARecord) : Option SARaw :=
  let permit_num := pyStrip (pyStrOr r.permitHash "")
  if permit_num = "" then none
  else
    let issue_date := parse_date (r.dateIssued.getD "")
    let submitted_date := parse_date (r.dateSubmitted.getD "")
    if issue_date = none ∧ submitted_date = none then none
    else
      let effective_date := (issue_date.orElse (fun _ => submitted_date)).getD ""
      let address := pyStrip (pyStrOr r.addr "")
      let xy := saCoordXY r.xCoord r.yCoord
      let latlon :=
        match xy.1 with
        | some _ => xy
        | none => saCoordLoc (r.locationField.getD "")
      let zip_code := extract_zip address
      let area_sf := areaFromFields r.areaSF r.areaSFAlt
      let total_units := estimate_units area_sf
      if total_units < MIN_UNITS then none
      else
        some {
          permit_num     := permit_num
          issue_date     := effective_date
          submitted_date := submitted_date
          address        := address
          zip_code       := zip_code
          latitude       := latlon.1
          longitude      := latlon.2
          area_sf        := if area_sf > 0 then some area_sf else none
          total_units    := total_units
          work_class     := pyUpper (pyStrip (pyStrOr r.workType ""))
          project_name   := pyStrip (pyStrOr r.projectName "")
          permit_type    := pyStrip (pyStrOr r.permitType "")
          permit_status  := pyStrip (pyStrOr r.status (pyStrOr r.statusAlt ""))
          cd             :=
            (fun c => if c = "" then none else some c) (pyStrip (pyStrOr r.cdField ""))
          raw_json       := "<json.dumps r>" }

/-- Coordinate extraction of Austin `parse_record` (`pipeline.py`): a
truthy `latitude` field is parsed and taken as-is together with the
`longitude` field; otherwise the nested `location` dict values are used
with a zero-to-None coercion.  No range check is applied. -/
def austinCoords (latField lonField locLat locLon : Option ℚ) :
    Option ℚ × Option ℚ :=
  match latField with
  | some la => (some la, lonField)
  | none =>
      (locLat.bind (fun v => if v = 0 then none else some v),
       locLon.bind (fun v => if v = 0 then none else some v))

/-- Modelled from the claim wording (C4): `ceil(area_sf / 900)` clamped to
a floor of 5 and a ceiling of 2000 — to be compared with the source
function `estimate_units`, which rounds instead of taking the ceiling. -/
def claimedEstimateUnitsCeil (area_sf : ℤ) : ℤ :=
  min (max 5 ⌈(area_sf : ℚ) / 900⌉) 2000

/-- A San Antonio CKAN record whose area (900 sq ft) yields a raw estimate
of 1 unit, far below the multifamily floor. -/
def saC5Rec : SARecord :=
  { permitHash := some "SA-LOW", permitNumAlt := none
    dateIssued := some "2024-05-01", dateSubmitted := none
    addr := some "", xCoord := none, yCoord := none, locationField := none
    areaSF := some 900, areaSFAlt := none
    workType := some "New", projectName := none, permitType := none
    status := none, statusAlt := none, cdField := none }

/-- What San Antonio `parse_record` produces for `saC5Rec`: the record is
kept, with the unit count clamped up to the floor of 5. -/
def saC5Parsed : SARaw :=
  { permit_num := "SA-LOW", issue_date := "2024-05-01"
    submitted_date := none, address := "", zip_code := none
    latitude := none, longitude := none, area_sf := some 900
    total_units := 5, work_class := "NEW", project_name := ""
    permit_type := "", permit_status := "", cd := none
    raw_json := "<json.dumps r>" }

/-! ## Watermark and incremental fetch (`pipeline.py`) -/

/-- The three Austin permit classes fetched by the pipeline. -/
def PERMIT_CLASSES : List String :=
  ["C- 104 Three & Four Family Bldgs",
   "C- 105 Five or More Family Bldgs",
   "C- 106 Mixed Use"]

/-- Model of `SELECT MAX(issue_date) FROM co_permits_raw WHERE issue_date
IS NOT NULL` followed by the Python `str(result) if result else None`: the
greatest non-null value of the `issue_date` column, `none` when the store
holds no dated rows. -/
def last_ingested_date : List (Option Nat) → Option Nat
  | [] => none
  | none :: ds => last_ingested_date ds
  | some x :: ds =>
      match last_ingested_date ds with
      | none => some x
      | some y => some (max x y)

/-- A record as it exists on the remote Socrata dataset (the fields the
query filters on). -/
structure AustinRemote where
  permit_class : String
  issue_date   : Nat
  deriving Repr, DecidableEq

/-- The `$where` clause built by `fetch_page`: `permit_class in (...)`,
plus `issue_date > '<since>T00:00:00.000'` when a since date is given
(stored dates are date-granular, so the midnight timestamp bound is the
strict order on dates). -/
def fetchWhere (since_date : Option Nat) (r : AustinRemote) : Bool :=
  PERMIT_CLASSES.contains r.permit_class &&
    (match since_date with
     | none => true
     | some d => d < r.issue_date)

/-- The server-side query: the dataset filtered by the `$where` clause. -/
def socrataQuery (dataset : List AustinRemote) (since_date : Option Nat) :
    List AustinRemote :=
  dataset.filter (fetchWhere since_date)

/-- The `since` bound chosen by `run_pipeline`: `None` for a backfill,
otherwise `last_ingested_date(conn)` — no separate cursor. -/
def pipelineSince (mode : String) (rawIssueDates : List (Option Nat)) :
    Option Nat :=
  if mode = "backfill" then none else last_ingested_date rawIssueDates

theorem last_ingested_date_mem :
    ∀ (dates : List (Option Nat)) (d : Nat),
      last_ingested_date dates = some d → some d ∈ dates := by
  intro dates
  induction dates with
  | nil => intro d h; cases h
  | cons e ds ih =>
      intro d h
      cases e with
      | none =>
          have h' : last_ingested_date ds = some d := by
            simpa [last_ingested_date] using h
          exact List.mem_cons_of_mem _ (ih d h')
      | some x =>
          cases hm : last_ingested_date ds with
          | none =>
              have h' : some x = some d := by
                simpa [last_ingested_date, hm] using h
              obtain rfl : x = d := Option.some_injective _ h'
              exact List.mem_cons_self _ _
          | some y =>
              have h' : some (max x y) = some d := by
                simpa [last_ingested_date, hm] using h
              obtain rfl : max x y = d := Option.some_injective _ h'
              rcases max_choice x y with hxy | hxy
              · rw [hxy]
                exact List.mem_cons_self _ _
              · rw [hxy]
                exact List.mem_cons_of_mem _ (ih y hm)

theorem last_ingested_date_le :
    ∀ (dates : List (Option Nat)) (x : Nat), some x ∈ dates →
      ∃ d, last_ingested_date dates = some d ∧ x ≤ d := by
  intro dates
  induction dates with
  | nil => intro x hx; cases hx
  | cons e ds ih =>
      intro x hx
      rcases List.mem_cons.mp hx with hhead | htail
      · cases hm : last_ingested_date ds with
        | none =>
            exact ⟨x, by simp [← hhead, last_ingested_date, hm], le_refl x⟩
        | some y =>
            exact ⟨max x y, by simp [← hhead, last_ingested_date, hm],
              le_max_left x y⟩
      · obtain ⟨d, hd, hxd⟩ := ih x htail
        cases e with
        | none => exact ⟨d, by simp [last_ingested_date, hd], hxd⟩
        | some z =>
            exact ⟨max z d, by simp [last_ingested_date, hd],
              hxd.trans (le_max_right z d)⟩

theorem last_ingested_date_none :
    ∀ dates : List (Option Nat), (∀ x : Nat, some x ∉ dates) →
      last_ingested_date dates = none := by
  intro dates
  induction dates with
  | nil => intro; rfl
  | cons e ds ih =>
      intro h
      cases e with
      | none =>
          have : last_ingested_date ds = none :=
            ih (fun x hx => h x (List.mem_cons_of_mem _ hx))
          simp [last_ingested_date, this]
      | some x => exact absurd (List.mem_cons_self _ _) (h x)

/-! ## Transient-failure retry loop (both `fetch_page` variants) -/

/-- Outcome of one HTTP attempt: a parsed response, or a transient failure
(read timeout / connection error — the exceptions caught by the loop). -/
inductive FetchAttempt (α : Type _)
  | ok (v : α)
  | transient

/-- The retry loop `for _attempt in range(5)` of `fetch_page` /
`fetch_ckan_page`: attempt `i` succeeds and breaks, or on a transient
failure raises when `i = 4` and otherwise sleeps `10 * (i + 1)` seconds
and retries.  Returns the result and the list of sleeps performed; the
fuel argument mirrors the loop bound and starts at 5. -/
def fetchRetryAux (oracle : ℕ → FetchAttempt α) : ℕ → ℕ → Except Unit α × List ℕ
  | 0, _ => (Except.error (), [])
  | fuel + 1, i =>
      match oracle i with
      | .ok v => (Except.ok v, [])
      | .transient =>
          if i = 4 then (Except.error (), [])
          else
            let p := fetchRetryAux oracle fuel (i + 1)
            (p.1, 10 * (i + 1) :: p.2)

/-- One call of `fetch_page`, given the outcome of each attempt. -/
def fetch_with_retry (oracle : ℕ → FetchAttempt α) : Except Unit α × List ℕ :=
  fetchRetryAux oracle 5 0

theorem fetch_with_retry_success (oracle : ℕ → FetchAttempt α)
    (k : ℕ) (v : α) (hk : k < 5)
    (hprev : ∀ j, j < k → oracle j = .transient) (hok : oracle k = .ok v) :
    fetch_with_retry oracle =
      (Except.ok v, (List.range k).map (fun j => 10 * (j + 1))) := by
  interval_cases k
  · simp [fetch_with_retry, fetchRetryAux, hok]
  · have h0 := hprev 0 (by norm_num)
    simp [fetch_with_retry, fetchRetryAux, h0, hok, List.range_succ]
  · have h0 := hprev 0 (by norm_num)
    have h1 := hprev 1 (by norm_num)
    simp [fetch_with_retry, fetchRetryAux, h0, h1, hok, List.range_succ]
  · have h0 := hprev 0 (by norm_num)
    have h1 := hprev 1 (by norm_num)
    have h2 := hprev 2 (by norm_num)
    simp [fetch_with_retry, fetchRetryAux, h0, h1, h2, hok, List.range_succ]
  · have h0 := hprev 0 (by norm_num)
    have h1 := hprev 1 (by norm_num)
    have h2 := hprev 2 (by norm_num)
    have h3 := hprev 3 (by norm_num)
    simp [fetch_with_retry, fetchRetryAux, h0, h1, h2, h3, hok,
      List.range_succ]

/-! ## Run orchestration audit row (`run_pipeline`, both pipelines) -/

/-- The counters accumulated by `run_pipeline`. -/
structure RunCounters where
  fetched     : ℕ
  new_records : ℕ
  enriched    : ℕ
  deriving Repr, DecidableEq

/-- A `pipeline_log` row (duration omitted). -/
structure AuditRow where
  run_type         : String
  records_fetched  : ℕ
  records_new      : ℕ
  records_enriched : ℕ
  errors           : Option String
  deriving Repr, DecidableEq

/-- Outcome of the `try` body of `run_pipeline`: normal completion with
final counters, or an exception caught by `except Exception` with the
counters accumulated so far. -/
inductive BodyOutcome
  | completes (c : RunCounters)
  | raises (e : String) (sofar : RunCounters)

/-- San Antonio `run_pipeline` audit behaviour: `conn = get_conn()` sits
before the `try`, so a connection failure exits with no audit row; body
exceptions are caught into `errors`; the `finally` block inserts one
`pipeline_log` row, and a failure of that insert is swallowed by its inner
`try ... except: pass` (no row, normal exit).  Returns the rows written
and the exception propagated, if any. -/
def run_pipeline_audit_sa (mode : String) (connectOk : Bool)
    (body : BodyOutcome) (auditInsertOk : Bool) :
    List AuditRow × Option String :=
  if connectOk = false then ([], some "could not connect to server")
  else
    let ec : Option String × RunCounters :=
      match body with
      | .completes c => (none, c)
      | .raises e sofar => (some e, sofar)
    if auditInsertOk then
      ([{ run_type := mode, records_fetched := ec.2.fetched
          records_new := ec.2.new_records, records_enriched := ec.2.enriched
          errors := ec.1 }], none)
    else ([], none)

/-- Austin `run_pipeline` audit behaviour: identical, except the `finally`
insert is not wrapped, so its failure propagates (still with no row). -/
def run_pipeline_audit_austin (mode : String) (connectOk : Bool)
    (body : BodyOutcome) (auditInsertOk : Bool) :
    List AuditRow × Option String :=
  if connectOk = false then ([], some "could not connect to server")
  else
    let ec : Option String × RunCounters :=
      match body with
      | .completes c => (none, c)
      | .raises e sofar => (some e, sofar)
    if auditInsertOk then
      ([{ run_type := mode, records_fetched := ec.2.fetched
          records_new := ec.2.new_records, records_enriched := ec.2.enriched
          errors := ec.1 }], none)
    else ([], some "audit insert failed")

/-! ## San Antonio two-resource fetch with dedup (`fetch_all`) -/

/-- The dedup key of the `fetch_all` loop:
`str(r.get("PERMIT #") or r.get("permit_num") or "").strip()`. -/
def saFetchKey (r : SARecord) : String :=
  pyStrip (pyStrOr r.permitHash (pyStrOr r.permitNumAlt ""))

/-- The dedup loop of `fetch_all`: keep a record when its key is nonblank
and unseen, tracking seen keys. -/
def dedupBy (key : α → String) : List String → List α → List α
  | _, [] => []
  | seen, r :: rs =>
      if key r ≠ "" ∧ key r ∉ seen then r :: dedupBy key (key r :: seen) rs
      else dedupBy key seen rs

/-- `fetch_all` with the two CKAN resource results abstracted: current
records first, historical appended, then deduplicated by permit number. -/
def sa_fetch_all (current historical : List SARecord) : List SARecord :=
  dedupBy saFetchKey [] (current ++ historical)

theorem dedupBy_mem_of_mem (key : α → String) :
    ∀ (l : List α) (seen : List String) (r : α),
      r ∈ dedupBy key seen l → r ∈ l ∧ key r ≠ "" := by
  intro l
  induction l with
  | nil => intro seen r h; cases h
  | cons x xs ih =>
      intro seen r h
      by_cases hc : key x ≠ "" ∧ key x ∉ seen
      · rw [dedupBy, if_pos hc] at h
        rcases List.mem_cons.mp h with hr | hr
        · exact ⟨hr ▸ List.mem_cons_self _ _, hr ▸ hc.1⟩
        · obtain ⟨hm, hk⟩ := ih _ r hr
          exact ⟨List.mem_cons_of_mem _ hm, hk⟩
      · rw [dedupBy, if_neg hc] at h
        obtain ⟨hm, hk⟩ := ih _ r h
        exact ⟨List.mem_cons_of_mem _ hm, hk⟩

theorem dedupBy_keys_nodup (key : α → String) :
    ∀ (l : List α) (seen : List String),
      ((dedupBy key seen l).map key).Nodup ∧
      ∀ k ∈ (dedupBy key seen l).map key, k ∉ seen := by
  intro l
  induction l with
  | nil => intro seen; simp [dedupBy]
  | cons x xs ih =>
      intro seen
      by_cases hc : key x ≠ "" ∧ key x ∉ seen
      · rw [dedupBy, if_pos hc]
        obtain ⟨hnd, hout⟩ := ih (key x :: seen)
        refine ⟨List.nodup_cons.mpr ⟨?_, hnd⟩, ?_⟩
        · intro hmem
          exact hout (key x) hmem (List.mem_cons_self _ _)
        · intro k hk
          rcases List.mem_cons.mp hk with hk | hk
          · exact hk ▸ hc.2
          · exact fun hks => hout k hk (List.mem_cons_of_mem _ hks)
      · rw [dedupBy, if_neg hc]
        exact ih seen

theorem dedupBy_first_mem (key : α → String) :
    ∀ (pre : List α) (r : α) (post : List α) (seen : List String),
      key r ≠ "" → key r ∉ seen → (∀ x ∈ pre, key x ≠ key r) →
      r ∈ dedupBy key seen (pre ++ r :: post) := by
  intro pre
  induction pre with
  | nil =>
      intro r post seen hk hs _
      rw [List.nil_append, dedupBy, if_pos ⟨hk, hs⟩]
      exact List.mem_cons_self _ _
  | cons x xs ih =>
      intro r post seen hk hs hpre
      have hxr : key x ≠ key r := hpre x (List.mem_cons_self _ _)
      have hpre' : ∀ y ∈ xs, key y ≠ key r :=
        fun y hy => hpre y (List.mem_cons_of_mem _ hy)
      rw [List.cons_append]
      by_cases hc : key x ≠ "" ∧ key x ∉ seen
      · rw [dedupBy, if_pos hc]
        refine List.mem_cons_of_mem _ (ih r post (key x :: seen) hk ?_ hpre')
        intro hmem
        rcases List.mem_cons.mp hmem with h | h
        · exact hxr h.symm
        · exact hs h
      · rw [dedupBy, if_neg hc]
        exact ih r post seen hk hs hpre'

/-- Blank CKAN record with only the permit-number keys set; used to
instantiate the fetch dedup claims. -/
def mkSAKeyRec (p q : Option String) : SARecord :=
  { permitHash := p, permitNumAlt := q, dateIssued := none
    dateSubmitted := none, addr := none, xCoord := none, yCoord := none
    locationField := none, areaSF := none, areaSFAlt := none
    workType := none, projectName := none, permitType := none
    status := none, statusAlt := none, cdField := none }

end Pipeline

namespace Claims

open Pipeline

/-- C1: upserting a normalized permit twice into the raw store leaves exactly
one row keyed by its permit number, with inserted = true only on the first
call; re-ingesting an existing permit number rewrites the mutable columns of
the existing row in place (per the DO UPDATE SET list) and never adds a row.
Stated for both the Austin and the San Antonio `UPSERT_RAW_SQL`. -/
theorem upsert_raw_idempotent :
    (∀ (s : List AustinRaw) (r : AustinRaw),
      (s.map AustinRaw.permit_num).Nodup →
      r.permit_num ∉ s.map AustinRaw.permit_num →
      (upsertAustinRaw s r).2 = true ∧
      (upsertAustinRaw (upsertAustinRaw s r).1 r).2 = false ∧
      ((upsertAustinRaw (upsertAustinRaw s r).1 r).1.map
          AustinRaw.permit_num).count r.permit_num = 1 ∧
      (upsertAustinRaw (upsertAustinRaw s r).1 r).1.length = s.length + 1) ∧
    (∀ (s : List AustinRaw) (r : AustinRaw),
      (s.map AustinRaw.permit_num).Nodup →
      r.permit_num ∈ s.map AustinRaw.permit_num →
      (upsertAustinRaw s r).1 =
        s.map (fun x =>
          if x.permit_num = r.permit_num then austinRawMerge x r else x) ∧
      (upsertAustinRaw s r).1.length = s.length ∧
      (upsertAustinRaw s r).2 = false) ∧
    (∀ (s : List SARaw) (r : SARaw),
      (s.map SARaw.permit_num).Nodup →
      r.permit_num ∉ s.map SARaw.permit_num →
      (upsertSARaw s r).2 = true ∧
      (upsertSARaw (upsertSARaw s r).1 r).2 = false ∧
      ((upsertSARaw (upsertSARaw s r).1 r).1.map
          SARaw.permit_num).count r.permit_num = 1 ∧
      (upsertSARaw (upsertSARaw s r).1 r).1.length = s.length + 1) ∧
    (∀ (s : List SARaw) (r : SARaw),
      (s.map SARaw.permit_num).Nodup →
      r.permit_num ∈ s.map SARaw.permit_num →
      (upsertSARaw s r).1 =
        s.map (fun x =>
          if x.permit_num = r.permit_num then saRawMerge x r else x) ∧
      (upsertSARaw s r).1.length = s.length ∧
      (upsertSARaw s r).2 = false) := by
  refine ⟨fun s r hnd hfresh => ?_, fun s r hnd hmem => ?_,
          fun s r hnd hfresh => ?_, fun s r hnd hmem => ?_⟩
  · exact upsertBy_twice AustinRaw.permit_num austinRawMerge
      austinRawMerge_key s r hnd hfresh
  · have h := upsertBy_of_mem AustinRaw.permit_num austinRawMerge s r hnd hmem
    refine ⟨by rw [show upsertAustinRaw s r = _ from h], ?_, by rw [show upsertAustinRaw s r = _ from h]⟩
    rw [show upsertAustinRaw s r = _ from h]
    simp
  · exact upsertBy_twice SARaw.permit_num saRawMerge saRawMerge_key s r hnd hfresh
  · have h := upsertBy_of_mem SARaw.permit_num saRawMerge s r hnd hmem
    refine ⟨by rw [show upsertSARaw s r = _ from h], ?_, by rw [show upsertSARaw s r = _ from h]⟩
    rw [show upsertSARaw s r = _ from h]
    simp

/-- Witness for C1 at concrete records: a fresh double upsert on the empty
store and a re-ingestion of an existing identifier. -/
theorem upsert_raw_idempotent_witness :
    ((upsertAustinRaw [] aSample).2 = true ∧
     (upsertAustinRaw (upsertAustinRaw [] aSample).1 aSample).2 = false ∧
     ((upsertAustinRaw (upsertAustinRaw [] aSample).1 aSample).1.map
         AustinRaw.permit_num).count aSample.permit_num = 1 ∧
     (upsertAustinRaw (upsertAustinRaw [] aSample).1 aSample).1.length = 0 + 1) ∧
    ((upsertAustinRaw [aSample] aSample2).1 =
       [aSample].map (fun x =>
         if x.permit_num = aSample2.permit_num then austinRawMerge x aSample2 else x) ∧
     (upsertAustinRaw [aSample] aSample2).1.length = 1 ∧
     (upsertAustinRaw [aSample] aSample2).2 = false) ∧
    ((upsertSARaw [] sSample).2 = true ∧
     (upsertSARaw (upsertSARaw [] sSample).1 sSample).2 = false ∧
     ((upsertSARaw (upsertSARaw [] sSample).1 sSample).1.map
         SARaw.permit_num).count sSample.permit_num = 1 ∧
     (upsertSARaw (upsertSARaw [] sSample).1 sSample).1.length = 0 + 1) :=
  ⟨upsert_raw_idempotent.1 [] aSample (by simp) (by simp),
   upsert_raw_idempotent.2.1 [aSample] aSample2 (by simp)
     (by simp [aSample, aSample2]),
   upsert_raw_idempotent.2.2.1 [] sSample (by simp) (by simp)⟩

/-- C2: two enriched rows sharing a dedup key (COALESCE(masterpermitnum,
permit_num) for Austin; (address, total_units) for San Antonio) with
different issue dates, both passing the view filters: `co_projects`
surfaces exactly the later-dated row, whatever the order of the underlying
table, hence deterministically across repeated evaluations. -/
theorem co_projects_dedup_latest :
    (∀ (r1 r2 : AustinPermit) (l : List AustinPermit),
      austinDedupKey r1 = austinDedupKey r2 →
      r2.issue_date < r1.issue_date →
      austinProjectsFilter r1 = true →
      austinProjectsFilter r2 = true →
      l.Perm [r1, r2] →
      austinProjects l = [(austinDedupKey r1, r1)]) ∧
    (∀ (r1 r2 : SAPermit) (l : List SAPermit),
      saDedupKey r1 = saDedupKey r2 →
      r2.issue_date < r1.issue_date →
      saProjectsFilter r1 = true →
      saProjectsFilter r2 = true →
      l.Perm [r1, r2] →
      saProjects l = [(saDedupKey r1, r1)]) := by
  constructor
  · intro r1 r2 l hk hlt hf1 hf2 hperm
    have hnlt : ¬ r1.issue_date < r2.issue_date := Nat.lt_asymm hlt
    rcases perm_pair hperm with hl | hl <;> subst hl
    · simp [austinProjects, pickLatest, updateLatest, hf1, hf2, hk, hnlt]
    · simp [austinProjects, pickLatest, updateLatest, hf1, hf2, hk, hlt]
  · intro r1 r2 l hk hlt hf1 hf2 hperm
    have hnlt : ¬ r1.issue_date < r2.issue_date := Nat.lt_asymm hlt
    rcases perm_pair hperm with hl | hl <;> subst hl
    · simp [saProjects, pickLatest, updateLatest, hf1, hf2, hk, hnlt]
    · simp [saProjects, pickLatest, updateLatest, hf1, hf2, hk, hlt]

/-- Witness for C2: two sub-permits of one Austin master permit fed in
reverse date order, and two San Antonio permits at the same address and
unit count. -/
theorem co_projects_dedup_latest_witness :
    (austinProjects
        [{ id := 2, permit_num := "P2", masterpermitnum := some "M1"
           issue_date := 90, total_units := 50, work_class := "NEW"
           submarket_name := none },
         { id := 1, permit_num := "P1", masterpermitnum := some "M1"
           issue_date := 100, total_units := 50, work_class := "NEW"
           submarket_name := none }] =
      [("M1",
        { id := 1, permit_num := "P1", masterpermitnum := some "M1"
          issue_date := 100, total_units := 50, work_class := "NEW"
          submarket_name := none })]) ∧
    (saProjects
        [{ id := 2, permit_num := "B", address := "1 ALAMO PLZ"
           issue_date := 110, total_units := 10 },
         { id := 1, permit_num := "A", address := "1 ALAMO PLZ"
           issue_date := 120, total_units := 10 }] =
      [(("1 ALAMO PLZ", 10),
        { id := 1, permit_num := "A", address := "1 ALAMO PLZ"
          issue_date := 120, total_units := 10 })]) :=
  ⟨co_projects_dedup_latest.1
      { id := 1, permit_num := "P1", masterpermitnum := some "M1"
        issue_date := 100, total_units := 50, work_class := "NEW"
        submarket_name := none }
      { id := 2, permit_num := "P2", masterpermitnum := some "M1"
        issue_date := 90, total_units := 50, work_class := "NEW"
        submarket_name := none }
      _ rfl (by decide) (by decide) (by decide) (List.Perm.swap _ _ _),
   co_projects_dedup_latest.2
      { id := 1, permit_num := "A", address := "1 ALAMO PLZ"
        issue_date := 120, total_units := 10 }
      { id := 2, permit_num := "B", address := "1 ALAMO PLZ"
        issue_date := 110, total_units := 10 }
      _ rfl (by decide) (by decide) (by decide) (List.Perm.swap _ _ _)⟩

/-- C3: submarket resolution order of `ENRICH_SQL` (both cities).  (1) With
both coordinates present and some loaded polygon containing the point, the
polygon match wins for every crosswalk (so even when the ZIP maps to a
different submarket); (2) with no polygon match the crosswalk lookup on
`COALESCE(zip_code, zip-from-address)` decides the name (null when the ZIP
is not covered); a missing coordinate on either side disables the spatial
join, and a null effective ZIP yields a null name. -/
theorem enrich_fallback_order :
    (∀ (subs : List Submarket) (xwalk : List (String × String))
       (zfa : String → Option String) (la lo : ℚ)
       (zip : Option String) (addr : String),
      (∃ s ∈ subs, submarketContains s lo la = true) →
      ∃ s ∈ subs, submarketContains s lo la = true ∧
        enrichSubmarketName subs xwalk zfa (some la) (some lo) zip addr
          = some s.submarket_name) ∧
    (∀ (subs : List Submarket) (xwalk : List (String × String))
       (zfa : String → Option String) (latitude longitude : Option ℚ)
       (zip : Option String) (addr : String),
      polyMatch subs latitude longitude = none →
      enrichSubmarketName subs xwalk zfa latitude longitude zip addr
        = xwalkLookup xwalk (zip.orElse (fun _ => zfa addr))) ∧
    (∀ (subs : List Submarket) (longitude : Option ℚ),
      polyMatch subs none longitude = none) ∧
    (∀ (subs : List Submarket) (latitude : Option ℚ),
      polyMatch subs latitude none = none) ∧
    (∀ (xwalk : List (String × String)), xwalkLookup xwalk none = none) := by
  refine ⟨?_, ?_, ?_, ?_, ?_⟩
  · intro subs xwalk zfa la lo zip addr hex
    have hsome : (subs.find? (fun s => submarketContains s lo la)).isSome := by
      rw [List.find?_isSome]
      obtain ⟨s, hs, hc⟩ := hex
      exact ⟨s, hs, hc⟩
    obtain ⟨s, hfind⟩ := Option.isSome_iff_exists.mp hsome
    have hps : submarketContains s lo la = true := by
      have h := List.find?_some hfind
      simpa using h
    refine ⟨s, List.mem_of_find?_eq_some hfind, hps, ?_⟩
    simp [enrichSubmarketName, polyMatch, hfind]
  · intro subs xwalk zfa latitude longitude zip addr hnone
    simp [enrichSubmarketName, hnone]
  · intro subs longitude
    cases longitude <;> rfl
  · intro subs latitude
    cases latitude <;> rfl
  · intro xwalk
    rfl

/-- Witness for C3: a point inside a loaded polygon beats a conflicting
crosswalk ZIP; with no polygon loaded the crosswalk ZIP decides. -/
theorem enrich_fallback_order_witness :
    (∃ s ∈ [Submarket.mk "S-DT" "Downtown Austin"
              (some (fun p => decide (p.1 < -97) && decide (30 < p.2)))],
      submarketContains s (-977/10) (303/10) = true ∧
      enrichSubmarketName
        [Submarket.mk "S-DT" "Downtown Austin"
          (some (fun p => decide (p.1 < -97) && decide (30 < p.2)))]
        [("78702", "East Austin")] (fun _ => none)
        (some (303/10)) (some (-977/10)) (some "78702") "101 MAIN ST"
        = some s.submarket_name) ∧
    (enrichSubmarketName [] [("78702", "East Austin")] (fun _ => none)
        none none (some "78702") "101 MAIN ST"
      = xwalkLookup [("78702", "East Austin")]
          ((some "78702").orElse (fun _ => none))) ∧
    (xwalkLookup [("78702", "East Austin")]
        ((some "78702").orElse (fun _ => none)) = some "East Austin") :=
  ⟨enrich_fallback_order.1
      [Submarket.mk "S-DT" "Downtown Austin"
        (some (fun p => decide (p.1 < -97) && decide (30 < p.2)))]
      [("78702", "East Austin")] (fun _ => none)
      (303/10) (-977/10) (some "78702") "101 MAIN ST"
      ⟨Submarket.mk "S-DT" "Downtown Austin"
          (some (fun p => decide (p.1 < -97) && decide (30 < p.2))),
        by simp, by simp [submarketContains]; constructor <;> norm_num⟩,
   enrich_fallback_order.2.1 [] [("78702", "East Austin")] (fun _ => none)
      none none (some "78702") "101 MAIN ST" rfl,
   rfl⟩

/-- C4 counterexample: at `area_sf = 9100` the source estimate is
`round(9100/900) = 10`, while the claimed formula `ceil(9100/900)` clamped
gives 11, so the derived unit count is not `ceil(area_sf / 900)` clamped. -/
theorem estimate_units_ceil_counterexample :
    estimate_units 9100 = 10 ∧ claimedEstimateUnitsCeil 9100 = 11 := by
  constructor
  · norm_num [estimate_units, pyRound, MIN_UNITS, MAX_UNITS, AVG_UNIT_SF]
  · rw [claimedEstimateUnitsCeil]
    have h : (⌈((9100 : ℤ) : ℚ) / 900⌉ : ℤ) = 11 := by
      rw [Int.ceil_eq_iff]; norm_num
    rw [h]
    decide

/-- C4 (amended): for a positive area the estimated unit count is
`round(area_sf / 900)` (Python half-to-even rounding, not the ceiling)
clamped to the floor MIN_UNITS = 5 and the cap MAX_UNITS = 2000; in
particular `area_sf = 4500` gives exactly 5 units. -/
theorem estimate_units_round_clamped :
    (∀ a : ℤ, 0 < a →
      estimate_units a = min (max 5 (pyRound ((a : ℚ) / 900))) 2000 ∧
      5 ≤ estimate_units a ∧ estimate_units a ≤ 2000) ∧
    estimate_units 4500 = 5 := by
  constructor
  · intro a ha
    have hne : ¬ a ≤ 0 := not_le.mpr ha
    refine ⟨by simp [estimate_units, MIN_UNITS, MAX_UNITS, AVG_UNIT_SF, hne], ?_, ?_⟩
    · rw [estimate_units, if_neg hne]
      exact le_min (by simp [MIN_UNITS]) (by norm_num [MAX_UNITS])
    · rw [estimate_units, if_neg hne]
      exact min_le_right _ _ |>.trans (by norm_num [MAX_UNITS])
  · norm_num [estimate_units, pyRound, MIN_UNITS, MAX_UNITS, AVG_UNIT_SF]

/-- Witness for C4 at `area_sf = 4500`: the formula applies and lands
exactly at the floor. -/
theorem estimate_units_round_clamped_witness :
    estimate_units 4500 = min (max 5 (pyRound ((4500 : ℚ) / 900))) 2000 ∧
    5 ≤ estimate_units 4500 ∧ estimate_units 4500 ≤ 2000 :=
  estimate_units_round_clamped.1 4500 (by norm_num)

/-- C5 counterexample: a record with `area_sf = 900` has raw estimate
`round(900/900) = 1 < 5`, yet `parse_record` does not reject it: the
estimate is clamped up to 5 by `_estimate_units` and the record is stored
with `total_units = 5`. -/
theorem parse_record_below_floor_counterexample :
    pyRound ((900 : ℚ) / 900) = 1 ∧ (1 : ℤ) < MIN_UNITS ∧
    parse_record saC5Rec = some saC5Parsed ∧ saC5Parsed.total_units = 5 := by
  refine ⟨by norm_num [pyRound], by decide, ?_, rfl⟩
  norm_num [parse_record, saC5Rec, saC5Parsed, pyStrOr, parse_date, pyStrip,
    pyUpper, saCoordXY, safe_float, saCoordLoc, extract_zip, areaFromFields,
    pyTrunc, estimate_units, pyRound, MIN_UNITS, MAX_UNITS, AVG_UNIT_SF]
  decide

/-- C5 (amended): `parse_record` stores `estimate_units` of the derived
area as the unit count and only rejects on the below-floor test when that
clamped estimate is below 5, which happens exactly for a non-positive
area; a positive area with a raw estimate below 5 is clamped up to 5 and
stored, never rejected. -/
theorem parse_record_units_floor :
    (∀ (r : SARecord) (p : SARaw), parse_record r = some p →
      MIN_UNITS ≤ p.total_units ∧
      p.total_units = estimate_units (areaFromFields r.areaSF r.areaSFAlt)) ∧
    (∀ a : ℤ, estimate_units a < MIN_UNITS ↔ a ≤ 0) ∧
    (∀ a : ℤ, 0 < a → MIN_UNITS ≤ estimate_units a) := by
  have hfloor : ∀ a : ℤ, 0 < a → MIN_UNITS ≤ estimate_units a := by
    intro a ha
    rw [estimate_units, if_neg (not_le.mpr ha)]
    exact le_min (le_max_left _ _) (by decide)
  refine ⟨?_, ?_, hfloor⟩
  · intro r p h
    simp only [parse_record] at h
    split at h
    · exact absurd h (by simp)
    · split at h
      · exact absurd h (by simp)
      · split at h
        · exact absurd h (by simp)
        · rename_i hnotlt
          obtain rfl := Option.some_injective _ h.symm
          exact ⟨not_lt.mp hnotlt, rfl⟩
  · intro a
    constructor
    · intro h
      by_contra ha
      exact absurd h (not_lt.mpr (hfloor a (lt_of_not_le ha)))
    · intro ha
      simp [estimate_units, ha, MIN_UNITS]

/-- Witness for C5 at the concrete record `saC5Rec` (area 900). -/
theorem parse_record_units_floor_witness :
    (MIN_UNITS ≤ saC5Parsed.total_units ∧
     saC5Parsed.total_units =
       estimate_units (areaFromFields saC5Rec.areaSF saC5Rec.areaSFAlt)) ∧
    (estimate_units 900 < MIN_UNITS ↔ (900 : ℤ) ≤ 0) ∧
    MIN_UNITS ≤ estimate_units 900 :=
  ⟨parse_record_units_floor.1 saC5Rec saC5Parsed
      (by
        norm_num [parse_record, saC5Rec, saC5Parsed, pyStrOr, parse_date,
          pyStrip, pyUpper, saCoordXY, safe_float, saCoordLoc, extract_zip,
          areaFromFields, pyTrunc, estimate_units, pyRound, MIN_UNITS,
          MAX_UNITS, AVG_UNIT_SF]
        decide),
   parse_record_units_floor.2.1 900,
   parse_record_units_floor.2.2 900 (by decide)⟩

/-- C9 counterexample: the X/Y pair (29.4, -98.5) — latitude first, i.e.
the swapped ordering — is inside the bounding box under swapping and is
accepted, but the code stores `lat := Y_COORD = -98.5`, `lon := X_COORD =
29.4`, a pair whose stored latitude is far outside the plausible latitude
range of the metro, contradicting the claimed order auto-detection. -/
theorem coord_guard_counterexample :
    saCoordXY (some (147/5)) (some (-197/2)) =
      (some (-197/2), some (147/5)) ∧
    ¬ (28 < (-197/2 : ℚ) ∧ (-197/2 : ℚ) < 61/2) := by
  constructor
  · norm_num [saCoordXY, safe_float]
  · norm_num

/-- C9 (amended): City B accepts an X/Y candidate pair only when one of
the two orderings lies inside the San Antonio box (lon −100..−97, lat
28..30.5), but in both cases it stores `(lat, lon) := (Y, X)` — correct
when `(X, Y)` is `(lon, lat)`, reversed (hence out-of-box) when the source
pair was swapped; pairs valid in neither ordering give null coordinates
(subject to the LOCATION fallback, which is guarded identically and does
assign the auto-detected order correctly); City A applies no bounding-box
validation at all and keeps any parsed pair. -/
theorem coord_guard_behaviour :
    (∀ x y : ℚ, ¬ x = 0 → ¬ y = 0 →
      ((-100 < x ∧ x < -97 ∧ 28 < y ∧ y < 61/2) ∨
       (-100 < y ∧ y < -97 ∧ 28 < x ∧ x < 61/2) →
        saCoordXY (some x) (some y) = (some y, some x)) ∧
      (¬ (-100 < x ∧ x < -97 ∧ 28 < y ∧ y < 61/2) →
       ¬ (-100 < y ∧ y < -97 ∧ 28 < x ∧ x < 61/2) →
        saCoordXY (some x) (some y) = (none, none))) ∧
    (∀ a b : ℚ,
      ((-100 < a ∧ a < -97 ∧ 28 < b ∧ b < 61/2) →
        saLocAssign a b = (some b, some a)) ∧
      (¬ (-100 < a ∧ a < -97 ∧ 28 < b ∧ b < 61/2) →
       (-100 < b ∧ b < -97 ∧ 28 < a ∧ a < 61/2) →
        saLocAssign a b = (some a, some b)) ∧
      (¬ (-100 < a ∧ a < -97 ∧ 28 < b ∧ b < 61/2) →
       ¬ (-100 < b ∧ b < -97 ∧ 28 < a ∧ a < 61/2) →
        saLocAssign a b = (none, none))) ∧
    (∀ (la lo : ℚ) (locLat locLon : Option ℚ),
      austinCoords (some la) (some lo) locLat locLon = (some la, some lo)) := by
  refine ⟨?_, ?_, fun la lo locLat locLon => rfl⟩
  · intro x y hx hy
    constructor
    · intro hbox
      rcases hbox with h1 | h2
      · simp [saCoordXY, safe_float, hx, hy, h1]
      · by_cases h1 : -100 < x ∧ x < -97 ∧ 28 < y ∧ y < 61/2
        · simp [saCoordXY, safe_float, hx, hy, h1]
        · simp [saCoordXY, safe_float, hx, hy, h1, h2]
    · intro h1 h2
      simp [saCoordXY, safe_float, hx, hy, h1, h2]
  · intro a b
    refine ⟨fun h1 => by simp [saLocAssign, h1],
            fun h1 h2 => by simp [saLocAssign, h1, h2],
            fun h1 h2 => by simp [saLocAssign, h1, h2]⟩

/-- Witness for C9: a correctly ordered (lon, lat) X/Y pair is stored
rightly; a swapped LOCATION pair is unswapped rightly; Austin passes the
implausible pair (999, 999) through unchecked. -/
theorem coord_guard_behaviour_witness :
    (((-100 : ℚ) < -985/10 ∧ (-985/10 : ℚ) < -97 ∧
        (28 : ℚ) < 294/10 ∧ (294/10 : ℚ) < 61/2) ∨
     ((-100 : ℚ) < 294/10 ∧ (294/10 : ℚ) < -97 ∧
        (28 : ℚ) < -985/10 ∧ (-985/10 : ℚ) < 61/2)) ∧
    saCoordXY (some (-985/10)) (some (294/10)) =
      (some (294/10), some (-985/10)) ∧
    saLocAssign (294/10) (-985/10) = (some (294/10), some (-985/10)) ∧
    austinCoords (some 999) (some 999) none none = (some 999, some 999) := by
  have hbox : ((-100 : ℚ) < -985/10 ∧ (-985/10 : ℚ) < -97 ∧
      (28 : ℚ) < 294/10 ∧ (294/10 : ℚ) < 61/2) ∨
      ((-100 : ℚ) < 294/10 ∧ (294/10 : ℚ) < -97 ∧
      (28 : ℚ) < -985/10 ∧ (-985/10 : ℚ) < 61/2) := by
    left; norm_num
  refine ⟨hbox, ?_, ?_, ?_⟩
  · exact ((coord_guard_behaviour.1 (-985/10) (294/10)
      (by norm_num) (by norm_num)).1) hbox
  · exact ((coord_guard_behaviour.2.1 (294/10) (-985/10)).2.1)
      (by norm_num) (by norm_num)
  · exact coord_guard_behaviour.2.2 999 999 none none

/-- C6: in incremental mode the `since` bound is `last_ingested_date` —
the maximum issue date persisted in the raw store, characterized as the
greatest non-null column value — absent when the store has no dated rows,
and the remote query keeps exactly the in-class records whose issue date
is strictly after that bound. -/
theorem incremental_watermark :
    (∀ dates : List (Option Nat),
      pipelineSince "incremental" dates = last_ingested_date dates) ∧
    (∀ (dates : List (Option Nat)) (d : Nat),
      last_ingested_date dates = some d ↔
        some d ∈ dates ∧ ∀ x : Nat, some x ∈ dates → x ≤ d) ∧
    (∀ dates : List (Option Nat), (∀ x : Nat, some x ∉ dates) →
      last_ingested_date dates = none) ∧
    (∀ (dataset : List AustinRemote) (d : Nat) (r : AustinRemote),
      r ∈ socrataQuery dataset (some d) ↔
        r ∈ dataset ∧ r.permit_class ∈ PERMIT_CLASSES ∧ d < r.issue_date) := by
  refine ⟨fun dates => rfl, ?_, last_ingested_date_none, ?_⟩
  · intro dates d
    constructor
    · intro h
      refine ⟨last_ingested_date_mem dates d h, ?_⟩
      intro x hx
      obtain ⟨d2, hd2, hxd2⟩ := last_ingested_date_le dates x hx
      rw [h] at hd2
      exact le_of_le_of_eq hxd2 (Option.some_injective _ hd2).symm
    · rintro ⟨hmem, hub⟩
      obtain ⟨d2, hd2, hdd2⟩ := last_ingested_date_le dates d hmem
      have hd2d : d2 ≤ d := hub d2 (last_ingested_date_mem dates d2 hd2)
      rw [hd2, le_antisymm hd2d hdd2]
  · intro dataset d r
    simp [socrataQuery, fetchWhere, List.mem_filter, and_assoc]

/-- Witness for C6: a store with dates 120 and 200 (and a null) has
watermark 200, and only the strictly later in-class remote record
survives the query. -/
theorem incremental_watermark_witness :
    (last_ingested_date [some 120, none, some 200] = some 200 ↔
      some 200 ∈ [some 120, none, some 200] ∧
      ∀ x : Nat, some x ∈ [some 120, none, some 200] → x ≤ 200) ∧
    (AustinRemote.mk "C- 106 Mixed Use" 250 ∈
        socrataQuery
          [AustinRemote.mk "C- 106 Mixed Use" 250,
           AustinRemote.mk "C- 106 Mixed Use" 150] (some 200) ↔
      AustinRemote.mk "C- 106 Mixed Use" 250 ∈
        [AustinRemote.mk "C- 106 Mixed Use" 250,
         AustinRemote.mk "C- 106 Mixed Use" 150] ∧
      "C- 106 Mixed Use" ∈ PERMIT_CLASSES ∧ 200 < 250) ∧
    last_ingested_date [some 120, none, some 200] = some 200 :=
  ⟨incremental_watermark.2.1 [some 120, none, some 200] 200,
   incremental_watermark.2.2.2
     [AustinRemote.mk "C- 106 Mixed Use" 250,
      AustinRemote.mk "C- 106 Mixed Use" 150] 200
     (AustinRemote.mk "C- 106 Mixed Use" 250),
   by decide⟩

/-- C7: the page fetch makes up to 5 attempts against timeouts and
connection resets, sleeping `10 * attempt-number` seconds after each
failed non-final attempt (10s, 20s, 30s, 40s); an attempt that succeeds
within the cap returns its response with exactly the earlier backoffs
performed, and the failure propagates to the caller exactly when all 5
attempts fail. -/
theorem fetch_retry_semantics :
    (∀ (α : Type) (oracle : ℕ → FetchAttempt α) (k : ℕ) (v : α), k < 5 →
      (∀ j, j < k → oracle j = .transient) → oracle k = .ok v →
      fetch_with_retry oracle =
        (Except.ok v, (List.range k).map (fun j => 10 * (j + 1)))) ∧
    (∀ (α : Type) (oracle : ℕ → FetchAttempt α),
      (∀ j, j < 5 → oracle j = .transient) →
      fetch_with_retry oracle = (Except.error (), [10, 20, 30, 40])) ∧
    (∀ (α : Type) (oracle : ℕ → FetchAttempt α) (s : List ℕ),
      fetch_with_retry oracle = (Except.error (), s) →
      ∀ j, j < 5 → oracle j = .transient) := by
  refine ⟨fun α => fetch_with_retry_success, ?_, ?_⟩
  · intro α oracle h
    have h0 := h 0 (by norm_num)
    have h1 := h 1 (by norm_num)
    have h2 := h 2 (by norm_num)
    have h3 := h 3 (by norm_num)
    have h4 := h 4 (by norm_num)
    simp [fetch_with_retry, fetchRetryAux, h0, h1, h2, h3, h4]
  · intro α oracle s hres j hj
    cases h0 : oracle 0 with
    | ok v0 =>
        rw [fetch_with_retry_success oracle 0 v0 (by norm_num)
          (fun j hj => absurd hj (Nat.not_lt_zero j)) h0] at hres
        simp at hres
    | transient =>
    cases h1 : oracle 1 with
    | ok v1 =>
        rw [fetch_with_retry_success oracle 1 v1 (by norm_num)
          (by intro j hj; interval_cases j; exact h0) h1] at hres
        simp at hres
    | transient =>
    cases h2 : oracle 2 with
    | ok v2 =>
        rw [fetch_with_retry_success oracle 2 v2 (by norm_num)
          (by intro j hj; interval_cases j <;> assumption) h2] at hres
        simp at hres
    | transient =>
    cases h3 : oracle 3 with
    | ok v3 =>
        rw [fetch_with_retry_success oracle 3 v3 (by norm_num)
          (by intro j hj; interval_cases j <;> assumption) h3] at hres
        simp at hres
    | transient =>
    cases h4 : oracle 4 with
    | ok v4 =>
        rw [fetch_with_retry_success oracle 4 v4 (by norm_num)
          (by intro j hj; interval_cases j <;> assumption) h4] at hres
        simp at hres
    | transient => interval_cases j <;> assumption

/-- Witness for C7: success on the third attempt after two transient
failures (sleeps 10 and 20), and propagation after five straight
failures. -/
theorem fetch_retry_semantics_witness :
    fetch_with_retry (fun n => if n < 2 then .transient else .ok (7 : ℕ)) =
      (Except.ok 7, (List.range 2).map (fun j => 10 * (j + 1))) ∧
    fetch_with_retry (fun _ => (FetchAttempt.transient : FetchAttempt ℕ)) =
      (Except.error (), [10, 20, 30, 40]) :=
  ⟨fetch_retry_semantics.1 ℕ _ 2 7 (by norm_num)
      (by intro j hj; interval_cases j <;> rfl) rfl,
   fetch_retry_semantics.2.1 ℕ _ (fun j _ => rfl)⟩

/-- C8 counterexample: a run whose body fails with a dropped connection
and whose audit insert then also fails writes zero `pipeline_log` rows
(San Antonio swallows the audit failure); a run that cannot even connect
writes zero rows as well (Austin shown).  Both contradict one row per
run attempt. -/
theorem run_audit_missing_counterexample :
    (run_pipeline_audit_sa "incremental" true
        (BodyOutcome.raises "SSL SYSCALL error: EOF detected"
          ⟨1200, 400, 0⟩) false).1 = [] ∧
    (run_pipeline_audit_austin "backfill" false
        (BodyOutcome.completes ⟨0, 0, 0⟩) true).1 = [] :=
  ⟨rfl, rfl⟩

/-- C8 (amended): when the initial connection and the audit insert both
succeed, every run attempt — normal completion or a body exception caught
by the orchestrator — writes exactly one `pipeline_log` row carrying the
run type, the counters accumulated so far, and the error text on failure;
when connecting fails, or the audit insert itself fails, no row is
written (San Antonio swallows the audit-insert failure, Austin propagates
it). -/
theorem run_audit_row :
    (∀ (mode : String) (c : RunCounters),
      run_pipeline_audit_sa mode true (.completes c) true =
        ([⟨mode, c.fetched, c.new_records, c.enriched, none⟩], none)) ∧
    (∀ (mode e : String) (c : RunCounters),
      run_pipeline_audit_sa mode true (.raises e c) true =
        ([⟨mode, c.fetched, c.new_records, c.enriched, some e⟩], none)) ∧
    (∀ (mode : String) (c : RunCounters),
      run_pipeline_audit_austin mode true (.completes c) true =
        ([⟨mode, c.fetched, c.new_records, c.enriched, none⟩], none)) ∧
    (∀ (mode e : String) (c : RunCounters),
      run_pipeline_audit_austin mode true (.raises e c) true =
        ([⟨mode, c.fetched, c.new_records, c.enriched, some e⟩], none)) ∧
    (∀ (mode : String) (body : BodyOutcome) (auditOk : Bool),
      (run_pipeline_audit_sa mode false body auditOk).1 = [] ∧
      (run_pipeline_audit_austin mode false body auditOk).1 = []) ∧
    (∀ (mode : String) (body : BodyOutcome),
      (run_pipeline_audit_sa mode true body false).1 = [] ∧
      run_pipeline_audit_austin mode true body false =
        ([], some "audit insert failed")) :=
  ⟨fun _ _ => rfl, fun _ _ _ => rfl, fun _ _ => rfl,
   fun _ _ _ => rfl, fun _ _ _ => ⟨rfl, rfl⟩,
   fun _ _ => ⟨rfl, rfl⟩⟩

/-- C10: `fetch_all` returns each permit identifier at most once; every
returned record comes from the concatenation current-then-historical and
has a nonblank identifier; the first record carrying a given identifier
in the current resource is kept; and any two returned records with equal
identifiers are the same record (so an overlapping historical record is
discarded). -/
theorem fetch_all_dedup_first_wins :
    (∀ c h : List SARecord, ((sa_fetch_all c h).map saFetchKey).Nodup) ∧
    (∀ (c h : List SARecord) (r : SARecord), r ∈ sa_fetch_all c h →
      r ∈ c ++ h ∧ saFetchKey r ≠ "") ∧
    (∀ (pre post h : List SARecord) (r : SARecord),
      saFetchKey r ≠ "" → (∀ x ∈ pre, saFetchKey x ≠ saFetchKey r) →
      r ∈ sa_fetch_all (pre ++ r :: post) h) ∧
    (∀ (c h : List SARecord) (r1 r2 : SARecord),
      r1 ∈ sa_fetch_all c h → r2 ∈ sa_fetch_all c h →
      saFetchKey r1 = saFetchKey r2 → r1 = r2) := by
  refine ⟨?_, ?_, ?_, ?_⟩
  · intro c h
    exact (dedupBy_keys_nodup saFetchKey (c ++ h) []).1
  · intro c h r hr
    exact dedupBy_mem_of_mem saFetchKey (c ++ h) [] r hr
  · intro pre post h r hk hpre
    have hsplit : (pre ++ r :: post) ++ h = pre ++ r :: (post ++ h) := by
      simp
    rw [sa_fetch_all, hsplit]
    exact dedupBy_first_mem saFetchKey pre r (post ++ h) [] hk
      (List.not_mem_nil _) hpre
  · intro c h r1 r2 h1 h2 hk
    exact List.inj_on_of_nodup_map
      ((dedupBy_keys_nodup saFetchKey (c ++ h) []).1) h1 h2 hk

/-- Witness for C10: the current resource holds permit P-1 and a
blank-identifier record, the historical resource holds a P-1 duplicate
(differing in its fallback key field) and H-9; the result keeps the
current P-1 and H-9 only. -/
theorem fetch_all_dedup_first_wins_witness :
    ((sa_fetch_all
        [mkSAKeyRec (some "P-1") none, mkSAKeyRec none none]
        [mkSAKeyRec (some "P-1") (some "dup"), mkSAKeyRec (some "H-9") none]).map
      saFetchKey).Nodup ∧
    (mkSAKeyRec (some "P-1") none ∈
        [mkSAKeyRec (some "P-1") none, mkSAKeyRec none none] ++
        [mkSAKeyRec (some "P-1") (some "dup"), mkSAKeyRec (some "H-9") none] ∧
      saFetchKey (mkSAKeyRec (some "P-1") none) ≠ "") ∧
    mkSAKeyRec (some "P-1") none ∈
      sa_fetch_all ([] ++ mkSAKeyRec (some "P-1") none :: [mkSAKeyRec none none])
        [mkSAKeyRec (some "P-1") (some "dup"), mkSAKeyRec (some "H-9") none] ∧
    sa_fetch_all
        [mkSAKeyRec (some "P-1") none, mkSAKeyRec none none]
        [mkSAKeyRec (some "P-1") (some "dup"), mkSAKeyRec (some "H-9") none] =
      [mkSAKeyRec (some "P-1") none, mkSAKeyRec (some "H-9") none] :=
  ⟨fetch_all_dedup_first_wins.1
      [mkSAKeyRec (some "P-1") none, mkSAKeyRec none none]
      [mkSAKeyRec (some "P-1") (some "dup"), mkSAKeyRec (some "H-9") none],
   fetch_all_dedup_first_wins.2.1
      [mkSAKeyRec (some "P-1") none, mkSAKeyRec none none]
      [mkSAKeyRec (some "P-1") (some "dup"), mkSAKeyRec (some "H-9") none]
      (mkSAKeyRec (some "P-1") none) (by decide),
   fetch_all_dedup_first_wins.2.2.1 []
      [mkSAKeyRec none none]
      [mkSAKeyRec (some "P-1") (some "dup"), mkSAKeyRec (some "H-9") none]
      (mkSAKeyRec (some "P-1") none) (by decide)
      (fun x hx => absurd hx (List.not_mem_nil x)),
   by decide⟩

end Claims
